import Mathlib

/-!
Shallow embedding of the core of the Blynd remote-brain service
(`src/services/remote-brain/app/providers.py` and
`src/services/remote-brain/app/blender_remote.py`).

Python strings are modelled as `List Char` (the payloads relevant here are
plain text; per-character `lower`/`strip` model the Python methods).  Network
effects are modelled by oracles: `generate_python_code` receives a
`BackendOracle` carrying the reply each backend would produce, and the
transport's receive loop consumes an explicit schedule of read events.
Byte chunks are modelled as already-decoded character lists (faithful for the
ASCII payloads at issue; mid-codepoint UTF-8 splits are out of scope).
-/

deriving instance DecidableEq for Except

/-- Python strings, modelled as lists of characters. -/
abbrev Str := List Char

/-- Characters of a Lean string literal, used to write Python `str` values. -/
def str (s : String) : Str := s.toList

/-- Python `str.lower()`, character by character. -/
def strLower (s : Str) : Str := s.map Char.toLower

/-- Leading-whitespace removal (the one-sided half of Python `str.strip()`). -/
def lstripChars (s : Str) : Str := s.dropWhile Char.isWhitespace

/-- Trailing-whitespace removal. -/
def rstripChars (s : Str) : Str := (lstripChars s.reverse).reverse

/-- Python `str.strip()`. -/
def pyStrip (s : Str) : Str := lstripChars (rstripChars s)

/-- Index of the first occurrence of `pat` in `s` (`none` when absent).
This is Python `s.find(pat)` restricted to the found case. -/
def findSub (pat : Str) : Str → Option Nat
  | [] => if pat = [] then some 0 else none
  | c :: rest =>
    if pat.isPrefixOf (c :: rest) then some 0
    else (findSub pat rest).map (· + 1)

/-- Python `s.find(pat)`: first index, or `-1` when absent. -/
def pyFindInt (pat s : Str) : Int :=
  match findSub pat s with
  | some i => (i : Int)
  | none => -1

/-- The three-backtick fence marker. -/
def bt3 : Str := str "```"

/-- The python-tagged fence marker searched for first
(`marker = "```python"` in `_extract_python_block`). -/
def marker : Str := str "```python"

/-- Start index computed by `_extract_python_block` (providers.py lines 32-39):
position just after the python-tagged marker when present in the lowered text,
else position of the first fence plus 3.  Kept as `Int` because Python carries
the possible `-1` of `find` through the arithmetic. -/
def extractStart (lowered : Str) : Int :=
  match findSub marker lowered with
  | some i => (i : Int) + 9
  | none => pyFindInt bt3 lowered + 3

/-- `_extract_python_block` (providers.py lines 28-45).  The containment guard
is on the raw text, the marker searches on the lowered text, and the slice is
taken from the raw text, exactly as in the source. -/
def extract_python_block (text : Str) : Str :=
  if findSub bt3 text = none then pyStrip text
  else
    match findSub bt3 ((strLower text).drop (extractStart (strLower text)).toNat) with
    | none => pyStrip text
    | some j => pyStrip ((text.drop (extractStart (strLower text)).toNat).take j)

/-- `choose_provider` (providers.py lines 13-25).  Note that the source never
reads `default_provider`: every fall-through returns `"openai"`. -/
def choose_provider (model : Str) (default_provider : Str) : Str :=
  if (str "groq/").isPrefixOf (strLower model) then str "groq"
  else if (str "openai/").isPrefixOf (strLower model) then str "openai"
  else if (str "anthropic/").isPrefixOf (strLower model) then str "anthropic"
  else if (str "claude").isPrefixOf (strLower model) then str "anthropic"
  else if (str "llama").isPrefixOf (strLower model)
       || (str "mixtral").isPrefixOf (strLower model) then str "groq"
  else str "openai"

/-- `Settings` (config.py lines 10-20): credential and default fields, with
`Optional[str]` credentials as `Option Str`. -/
structure Settings where
  remote_brain_token : Option Str
  openai_api_key : Option Str
  anthropic_api_key : Option Str
  groq_api_key : Option Str
  groq_base_url : Str
  default_provider : Str
  default_openai_model : Str
  default_anthropic_model : Str
  default_groq_model : Str
  deriving DecidableEq

/-- Python truthiness of an `Optional[str]`: `None` and `""` are falsy;
every non-empty string (including whitespace-only ones) is truthy. -/
def pyTruthy : Option Str → Bool
  | none => false
  | some s => !s.isEmpty

/-- The default-provider fall-through of `_resolve_provider_and_model`
(providers.py lines 62-66). -/
def defaultTarget (settings : Settings) : Str × Str :=
  if strLower (pyStrip settings.default_provider) = str "anthropic" then
    (str "anthropic", settings.default_anthropic_model)
  else if strLower (pyStrip settings.default_provider) = str "groq" then
    (str "groq", settings.default_groq_model)
  else (str "openai", settings.default_openai_model)

/-- `requested = (model or "").strip()` (providers.py line 49). -/
def requestedOf (model : Option Str) : Str := pyStrip (model.getD [])

/-- Second component of Python `s.split("/", 1)`: everything after the first
slash (the whole string unchanged when no slash occurs is handled by the
caller's membership test). -/
def afterFirstSlash : Str → Str
  | [] => []
  | c :: rest => if c = '/' then rest else afterFirstSlash rest

/-- Membership in the provider set literal of providers.py line 54. -/
def isKnownProvider (p : Str) : Bool :=
  decide (p = str "openai" ∨ p = str "anthropic" ∨ p = str "groq")

/-- The `provider_model` local of `_resolve_provider_and_model`
(providers.py lines 54-58): the stripped post-slash remainder when the
selector contains a slash and classifies to a known provider, else the whole
requested selector. -/
def providerModelOf (model : Option Str) (settings : Settings) : Str :=
  if ('/' ∈ requestedOf model)
      ∧ isKnownProvider (choose_provider (requestedOf model)
          (strLower (pyStrip settings.default_provider))) = true then
    pyStrip (afterFirstSlash (requestedOf model))
  else requestedOf model

/-- `_resolve_provider_and_model` (providers.py lines 48-66): an empty
requested selector, or an empty `provider_model`, falls through to the
configured defaults; otherwise the classified provider is paired with the
selected model name. -/
def resolve_provider_and_model (model : Option Str) (settings : Settings) : Str × Str :=
  if requestedOf model = [] then defaultTarget settings
  else if providerModelOf model settings = [] then defaultTarget settings
  else (choose_provider (requestedOf model) (strLower (pyStrip settings.default_provider)),
        providerModelOf model settings)

/-- One Anthropic content block: `getattr(block, "type", None)` is the
`Option Str` and `block.text` the payload (providers.py lines 118-121). -/
structure AnthropicBlock where
  type : Option Str
  text : Str
  deriving DecidableEq

/-- Reply each backend would produce, abstracting the network call:
`output_text` for the OpenAI responses API (with absence collapsed to `""`
as by `getattr(response, "output_text", "") or ""`), the optional
`choices[0].message.content` for Groq, and the content-block list for
Anthropic. -/
structure BackendOracle where
  openai_output_text : Str
  groq_content : Option Str
  anthropic_blocks : List AnthropicBlock
  deriving DecidableEq

/-- Block filter of providers.py line 120: `type == "text"`. -/
def isTextBlock (b : AnthropicBlock) : Bool := decide (b.type = some (str "text"))

/-- Python `"\n".join`. -/
def joinNL : List Str → Str
  | [] => []
  | [s] => s
  | s :: rest => s ++ '\n' :: joinNL rest

/-- Reply text of the OpenAI branch (providers.py line 84). -/
def openaiText (oracle : BackendOracle) : Str := oracle.openai_output_text

/-- Reply text of the Groq branch (providers.py line 102):
`(response.choices[0].message.content or "").strip()`. -/
def groqText (oracle : BackendOracle) : Str := pyStrip (oracle.groq_content.getD [])

/-- Reply text of the Anthropic branch (providers.py lines 118-123): the
texts of the `"text"`-typed blocks joined with newlines, then stripped. -/
def anthropicText (oracle : BackendOracle) : Str :=
  pyStrip (joinNL ((oracle.anthropic_blocks.filter isTextBlock).map AnthropicBlock.text))

/-- `generate_python_code` (providers.py lines 69-127) with the network call
abstracted by the oracle: per resolved provider, the credential truthiness
check, then the branch-specific emptiness check on the reply text, then the
fence extraction and the qualified model string.  `prompt` and
`system_prompt` only feed the abstracted network call. -/
def generate_python_code (prompt : Str) (model : Option Str) (system_prompt : Str)
    (settings : Settings) (oracle : BackendOracle) : Except Str (Str × Str × Str) :=
  if (resolve_provider_and_model model settings).1 = str "openai" then
    if pyTruthy settings.openai_api_key = false then
      Except.error (str "OPENAI_API_KEY is not configured.")
    else if openaiText oracle = [] then
      Except.error (str "OpenAI response was empty.")
    else
      Except.ok (extract_python_block (openaiText oracle),
        (resolve_provider_and_model model settings).1,
        str "openai/" ++ (resolve_provider_and_model model settings).2)
  else if (resolve_provider_and_model model settings).1 = str "groq" then
    if pyTruthy settings.groq_api_key = false then
      Except.error (str "GROQ_API_KEY is not configured.")
    else if groqText oracle = [] then
      Except.error (str "Groq response was empty.")
    else
      Except.ok (extract_python_block (groqText oracle),
        (resolve_provider_and_model model settings).1,
        str "groq/" ++ (resolve_provider_and_model model settings).2)
  else
    if pyTruthy settings.anthropic_api_key = false then
      Except.error (str "ANTHROPIC_API_KEY is not configured.")
    else if anthropicText oracle = [] then
      Except.error (str "Anthropic response was empty.")
    else
      Except.ok (extract_python_block (anthropicText oracle),
        (resolve_provider_and_model model settings).1,
        str "anthropic/" ++ (resolve_provider_and_model model settings).2)

/-- Parsed response of the Blender addon (blender_remote.py lines 61-65):
only the `status` and `message` fields are inspected by the code; the free
`result` payload stands in for the rest of the dict.  Field values are
restricted to the strings the inspected paths compare against. -/
structure BResponse where
  status : Option Str
  message : Option Str
  result : Option Str
  deriving DecidableEq

/-- Fallback message of blender_remote.py line 62. -/
def unknownAddonError : Str := str "Unknown Blender addon error"

/-- Tail of `send_blender_command` (blender_remote.py lines 61-65), applied to
the parsed response produced by `_recv_json` (the connection and the framing
loop are modelled separately by `recv_json`): an `"error"` status raises with
the response's `message` — any falsy message (absent or empty) replaced by the
generic fallback — and every other response is returned as success. -/
def send_blender_command (response : BResponse) : Except Str BResponse :=
  if response.status = some (str "error") then
    Except.error
      (match response.message with
       | some m => if m = [] then unknownAddonError else m
       | none => unknownAddonError)
  else Except.ok response

/-- One observable outcome of `sock.recv` in the `_recv_json` loop: either a
chunk of bytes (empty meaning the peer closed the stream) or a read timeout. -/
inductive ReadEvent where
  | bytes (s : Str) : ReadEvent
  | timeoutEv : ReadEvent
  deriving DecidableEq

/-- Result of the `_recv_json` loop, the error cases matching the three raise
sites of blender_remote.py lines 22, 35 and 40; `blocked` marks a schedule
that ends while the loop would still be waiting on `recv`. -/
inductive RecvOutcome (α : Type) where
  | success (v : α) : RecvOutcome α
  | timeoutNoData : RecvOutcome α
  | noResponse : RecvOutcome α
  | invalidJson : RecvOutcome α
  | blocked : RecvOutcome α
  deriving DecidableEq

/-- Final section of `_recv_json` (blender_remote.py lines 34-40), reached
after the loop breaks: no accumulated bytes is the no-response error,
otherwise one last parse attempt decides between success and the
invalid-JSON error. -/
def recvFinal {α : Type} (parse : Str → Option α) (acc : Str) : RecvOutcome α :=
  if acc = [] then RecvOutcome.noResponse
  else
    match parse acc with
    | some v => RecvOutcome.success v
    | none => RecvOutcome.invalidJson

/-- Read loop of `_recv_json` (blender_remote.py lines 16-32) over an explicit
schedule of read events, `parse` standing for `json.loads` on the decoded
accumulation buffer: a timeout with an empty buffer is the hard timeout
error, a timeout with data breaks to the final parse, a zero-length read
breaks to the final section, and after every appended chunk a parse attempt
returns immediately on success. -/
def recvLoop {α : Type} (parse : Str → Option α) : List ReadEvent → Str → RecvOutcome α
  | [], _ => RecvOutcome.blocked
  | ReadEvent.timeoutEv :: _, acc =>
    if acc = [] then RecvOutcome.timeoutNoData else recvFinal parse acc
  | ReadEvent.bytes b :: rest, acc =>
    if b = [] then recvFinal parse acc
    else
      match parse (acc ++ b) with
      | some v => RecvOutcome.success v
      | none => recvLoop parse rest (acc ++ b)

/-- `_recv_json` (blender_remote.py lines 12-40): the read loop started with
an empty accumulation buffer. -/
def recv_json {α : Type} (parse : Str → Option α) (events : List ReadEvent) : RecvOutcome α :=
  recvLoop parse events []

/-- JSON insignificant whitespace (RFC 8259), as accepted by `json.loads`. -/
def isJsonWs (c : Char) : Bool := c = ' ' || c = '\t' || c = '\n' || c = '\r'

/-- Strip JSON whitespace from both ends. -/
def stripJsonWs (s : Str) : Str :=
  ((s.dropWhile isJsonWs).reverse.dropWhile isJsonWs).reverse

/-- Numeric value of a digit string. -/
def digitsVal (ds : Str) : Nat := ds.foldl (fun n c => n * 10 + (c.toNat - 48)) 0

/-- Valid JSON integer digit sequences: non-empty, all digits, no leading
zero except for the single digit `0`. -/
def isIntDigits : Str → Bool
  | [] => false
  | ['0'] => true
  | '0' :: _ :: _ => false
  | ds => ds.all Char.isDigit

/-- Behaviour of Python `json.loads` on the restricted universe of strings
built from digits, a minus sign and JSON whitespace: an optionally signed
integer literal with optional surrounding whitespace parses to its value,
everything else in that universe fails.  This is the concrete `parse`
instance used for the transport schedules below, which only ever carry such
payloads. -/
def jsonIntDoc (s : Str) : Option Int :=
  match stripJsonWs s with
  | '-' :: ds => if isIntDigits ds then some (-(digitsVal ds : Int)) else none
  | t => if isIntDigits t then some ((digitsVal t : Int)) else none

/-- Concrete settings with only the OpenAI credential configured. -/
def settingsOpenAI : Settings :=
  ⟨none, some (str "test-key"), none, none, str "https://api.groq.com/openai/v1",
   str "openai", str "gpt-4o-mini", str "claude-3-5-sonnet-latest",
   str "llama-3.3-70b-versatile"⟩

/-- Concrete settings whose OpenAI credential is whitespace-only. -/
def settingsBlankKey : Settings :=
  ⟨none, some (str " "), none, none, str "https://api.groq.com/openai/v1",
   str "openai", str "gpt-4o-mini", str "claude-3-5-sonnet-latest",
   str "llama-3.3-70b-versatile"⟩

/-- Concrete settings with only the Anthropic credential configured and
Anthropic as the default provider. -/
def settingsAnthropic : Settings :=
  ⟨none, none, some (str "test-key"), none, str "https://api.groq.com/openai/v1",
   str "anthropic", str "gpt-4o-mini", str "claude-3-5-sonnet-latest",
   str "llama-3.3-70b-versatile"⟩

/-- Concrete settings with Groq as the default provider and no credentials. -/
def settingsGroqDefault : Settings :=
  ⟨none, none, none, none, str "https://api.groq.com/openai/v1",
   str "groq", str "gpt-4o-mini", str "claude-3-5-sonnet-latest",
   str "llama-3.3-70b-versatile"⟩

/-- Oracle replying with bare code on every backend path. -/
def oracleSimple : BackendOracle :=
  ⟨str "print(1)", some (str "print(1)"), [⟨some (str "text"), str "print(1)"⟩]⟩

/-- Oracle whose OpenAI reply is a python-tagged fence with empty content. -/
def oracleEmptyFence : BackendOracle := ⟨str "```python\n```", none, []⟩

/-- Oracle with a mix of text and non-text Anthropic content blocks. -/
def oracleAnthropicMixed : BackendOracle :=
  ⟨[], none,
   [⟨some (str "tool_use"), str "ignored"⟩,
    ⟨some (str "text"), str "print(1)"⟩,
    ⟨none, str "also ignored"⟩,
    ⟨some (str "text"), str "print(2)"⟩]⟩

/-- Dropping a while-prefix ignores a leading block that satisfies the
predicate throughout. -/
theorem dropWhile_append_all {p : Char → Bool} {a b : Str} (h : ∀ c ∈ a, p c = true) :
    (a ++ b).dropWhile p = b.dropWhile p := by
  induction a with
  | nil => rfl
  | cons c a ih =>
    have hc : p c = true := h c (by simp)
    simp only [List.cons_append, List.dropWhile_cons, hc, if_true]
    exact ih (fun x hx => h x (by simp [hx]))

/-- Python `strip` is unchanged by appending trailing whitespace. -/
theorem pyStrip_append_ws {s ws : Str} (h : ∀ c ∈ ws, c.isWhitespace = true) :
    pyStrip (s ++ ws) = pyStrip s := by
  unfold pyStrip rstripChars lstripChars
  rw [List.reverse_append, dropWhile_append_all (fun c hc => h c (List.mem_reverse.mp hc))]

/-- A list that exhibits `pat` as an explicit factor contains it. -/
theorem findSub_append_pat (pat a b : Str) : findSub pat (a ++ (pat ++ b)) ≠ none := by
  induction a with
  | nil =>
    rw [List.nil_append]
    cases hpb : pat ++ b with
    | nil =>
      have hp : pat = [] := (List.append_eq_nil.mp hpb).1
      simp [findSub, hp]
    | cons c rest =>
      have hpre : pat.isPrefixOf (pat ++ b) = true :=
        List.isPrefixOf_iff_prefix.mpr (List.prefix_append pat b)
      rw [hpb] at hpre
      simp [findSub, hpre]
  | cons c a ih =>
    rw [List.cons_append, findSub]
    by_cases hp : pat.isPrefixOf (c :: (a ++ (pat ++ b))) = true
    · simp [hp]
    · simp only [hp, if_false]
      cases hf : findSub pat (a ++ (pat ++ b)) with
      | none => exact absurd hf ih
      | some i => simp

/-- Lowering distributes over append. -/
theorem strLower_append (a b : Str) : strLower (a ++ b) = strLower a ++ strLower b :=
  List.map_append Char.toLower a b

/-- Lowering preserves length. -/
theorem strLower_length (s : Str) : (strLower s).length = s.length :=
  List.length_map s Char.toLower

/-- Unfolding of `extract_python_block` when the closing-fence search
succeeds at relative index `j`. -/
theorem extract_found {text : Str} {j : Nat}
    (hg : ¬ findSub bt3 text = none)
    (he : findSub bt3 ((strLower text).drop (extractStart (strLower text)).toNat) = some j) :
    extract_python_block text
      = pyStrip ((text.drop (extractStart (strLower text)).toNat).take j) := by
  unfold extract_python_block
  rw [if_neg hg, he]

/-- Unfolding of `extract_python_block` when no closing fence follows the
computed start: the trimmed whole text is returned. -/
theorem extract_after_none {text : Str}
    (hg : ¬ findSub bt3 text = none)
    (he : findSub bt3 ((strLower text).drop (extractStart (strLower text)).toNat) = none) :
    extract_python_block text = pyStrip text := by
  unfold extract_python_block
  rw [if_neg hg, he]

/-- `choose_provider` only ever returns one of the three provider names. -/
theorem choose_provider_cases (m d : Str) :
    choose_provider m d = str "groq" ∨ choose_provider m d = str "openai"
      ∨ choose_provider m d = str "anthropic" := by
  unfold choose_provider
  split_ifs <;> simp

/-- The default fall-through returns one of the three configured pairs. -/
theorem defaultTarget_cases (s : Settings) :
    defaultTarget s = (str "anthropic", s.default_anthropic_model)
    ∨ defaultTarget s = (str "groq", s.default_groq_model)
    ∨ defaultTarget s = (str "openai", s.default_openai_model) := by
  unfold defaultTarget
  split_ifs <;> simp

/-- A provider-prefix-only selector classifies to that provider (the `"/"`
makes the first matching `startswith` branch fire), for openai. -/
theorem choose_provider_openai_slash (d : Str) :
    choose_provider (str "openai/") d = str "openai" := rfl

/-- Prefix-only classification for anthropic. -/
theorem choose_provider_anthropic_slash (d : Str) :
    choose_provider (str "anthropic/") d = str "anthropic" := rfl

/-- Prefix-only classification for groq. -/
theorem choose_provider_groq_slash (d : Str) :
    choose_provider (str "groq/") d = str "groq" := rfl

/-- Filtering for text blocks is idempotent. -/
theorem filter_isText_idem (l : List AnthropicBlock) :
    (l.filter isTextBlock).filter isTextBlock = l.filter isTextBlock := by
  simp [List.filter_filter]

/-- A selector of the form known-provider-prefix plus trailing whitespace
resolves exactly like the absent selector: the split model name strips to
empty, so the code falls through to the configured defaults. -/
theorem resolve_slash_blank_aux (sel ws prov : Str) (settings : Settings)
    (hstrip : pyStrip (sel ++ ws) = sel) (hne : sel ≠ []) (hslash : '/' ∈ sel)
    (hcp : choose_provider sel (strLower (pyStrip settings.default_provider)) = prov)
    (hknown : isKnownProvider prov = true)
    (hafter : pyStrip (afterFirstSlash sel) = []) :
    resolve_provider_and_model (some (sel ++ ws)) settings
      = resolve_provider_and_model none settings := by
  have hreq : requestedOf (some (sel ++ ws)) = sel := hstrip
  have hpm : providerModelOf (some (sel ++ ws)) settings = [] := by
    unfold providerModelOf
    rw [hreq, hcp, if_pos ⟨hslash, hknown⟩]
    exact hafter
  unfold resolve_provider_and_model
  rw [hreq, if_neg hne, hpm, if_pos rfl]
  rfl

/-- Claim C1: the spec says an unrecognized selector falls back to the
caller-supplied default provider, and `choose_provider` accepts that default
as a parameter, but the code never reads it: every fall-through returns
`"openai"`.  At the failing input `("custom-model", default "groq")` the
function returns `"openai"`, not the default; likewise for default
`"anthropic"`. -/
theorem C1_default_ignored :
    choose_provider (str "custom-model") (str "groq") = str "openai"
    ∧ choose_provider (str "custom-model") (str "anthropic") = str "openai"
    ∧ str "openai" ≠ str "groq"
    ∧ str "openai" ≠ str "anthropic" := by
  exact ⟨by decide, by decide, by decide, by decide⟩

/-- Claim C2 (amended): whenever `generate_python_code` returns normally, the
returned code is the fence-extraction of some non-empty backend reply text —
but extraction may strip a fenced block down to the empty string, so the code
itself is not guaranteed non-empty. -/
theorem C2_code_from_reply (prompt : Str) (model : Option Str) (system_prompt : Str)
    (settings : Settings) (oracle : BackendOracle) (code provider qualified : Str)
    (h : generate_python_code prompt model system_prompt settings oracle
      = Except.ok (code, provider, qualified)) :
    ∃ text : Str, text ≠ [] ∧ code = extract_python_block text := by
  unfold generate_python_code at h
  split_ifs at h <;>
    first
    | exact Except.noConfusion h
    | (simp only [Except.ok.injEq, Prod.mk.injEq] at h
       refine ⟨_, ?_, h.1.symm⟩
       assumption)

/-- Witness for C2: a concrete normal return whose code is the extraction of
the concrete OpenAI reply. -/
theorem C2_code_from_reply_witness :
    ∃ text : Str, text ≠ [] ∧ str "print(1)" = extract_python_block text :=
  C2_code_from_reply (str "p") none (str "s") settingsOpenAI oracleSimple
    (str "print(1)") (str "openai") (str "openai/gpt-4o-mini") (by decide)

/-- Counterexample to C2 as stated: the reply `"```python\n```"` is non-blank
before extraction, yet `generate_python_code` returns normally with an empty
code string. -/
theorem C2_counterexample :
    generate_python_code (str "p") none (str "s") settingsOpenAI oracleEmptyFence
      = Except.ok ([], str "openai", str "openai/gpt-4o-mini")
    ∧ pyStrip (openaiText oracleEmptyFence) ≠ [] := by
  exact ⟨by decide, by decide⟩

/-- Claim C4 (amended): for each backend, an absent or empty (`None` or
zero-length) credential makes `generate_python_code` fail with the
configuration error for every oracle — i.e. independently of any network
reply, so before any network call.  (Whitespace-only credentials are truthy
in Python and are not caught; see the counterexample.) -/
theorem C4_missing_credential (prompt : Str) (model : Option Str) (system_prompt : Str)
    (settings : Settings) (oracle : BackendOracle) :
    ((resolve_provider_and_model model settings).1 = str "openai" →
      pyTruthy settings.openai_api_key = false →
      generate_python_code prompt model system_prompt settings oracle
        = Except.error (str "OPENAI_API_KEY is not configured."))
    ∧ ((resolve_provider_and_model model settings).1 = str "groq" →
      pyTruthy settings.groq_api_key = false →
      generate_python_code prompt model system_prompt settings oracle
        = Except.error (str "GROQ_API_KEY is not configured."))
    ∧ ((resolve_provider_and_model model settings).1 = str "anthropic" →
      pyTruthy settings.anthropic_api_key = false →
      generate_python_code prompt model system_prompt settings oracle
        = Except.error (str "ANTHROPIC_API_KEY is not configured.")) := by
  refine ⟨?_, ?_, ?_⟩
  · intro hp hk
    unfold generate_python_code
    rw [if_pos hp, if_pos hk]
  · intro hp hk
    unfold generate_python_code
    rw [if_neg (by rw [hp]; decide), if_pos hp, if_pos hk]
  · intro hp hk
    unfold generate_python_code
    rw [if_neg (by rw [hp]; decide), if_neg (by rw [hp]; decide), if_pos hk]

/-- Witness for C4: concrete missing-credential failures on all three
backends. -/
theorem C4_missing_credential_witness :
    generate_python_code (str "p") (some (str "openai/gpt-4o")) (str "s")
        settingsGroqDefault oracleSimple
      = Except.error (str "OPENAI_API_KEY is not configured.")
    ∧ generate_python_code (str "p") none (str "s") settingsGroqDefault oracleSimple
      = Except.error (str "GROQ_API_KEY is not configured.")
    ∧ generate_python_code (str "p") (some (str "claude-3-opus")) (str "s")
        settingsGroqDefault oracleSimple
      = Except.error (str "ANTHROPIC_API_KEY is not configured.") :=
  ⟨(C4_missing_credential (str "p") (some (str "openai/gpt-4o")) (str "s")
      settingsGroqDefault oracleSimple).1 (by decide) (by decide),
   (C4_missing_credential (str "p") none (str "s")
      settingsGroqDefault oracleSimple).2.1 (by decide) (by decide),
   (C4_missing_credential (str "p") (some (str "claude-3-opus")) (str "s")
      settingsGroqDefault oracleSimple).2.2 (by decide) (by decide)⟩

/-- Counterexample to C4 as stated: a whitespace-only OpenAI key is truthy in
Python, so the configuration check passes and the call proceeds to the
backend instead of failing with the configuration error. -/
theorem C4_counterexample :
    settingsBlankKey.openai_api_key = some (str " ")
    ∧ generate_python_code (str "p") none (str "s") settingsBlankKey oracleSimple
      = Except.ok (str "print(1)", str "openai", str "openai/gpt-4o-mini")
    ∧ generate_python_code (str "p") none (str "s") settingsBlankKey oracleSimple
      ≠ Except.error (str "OPENAI_API_KEY is not configured.") := by
  exact ⟨by decide, by decide, by decide⟩

/-- Claim C5 (amended): a document that parses as one complete structured
value is received identically — as the same parsed value — whether delivered
in a single read, in two reads whose first fragment does not already parse as
a complete document on its own, with a trailing read timeout after the data,
or with a trailing stream close; without the no-premature-parse proviso the
loop can return a prefix's value (see the counterexample). -/
theorem C5_schedule_independence {α : Type} (parse : Str → Option α)
    (doc a b : Str) (v : α)
    (hdoc : parse doc = some v) (hsplit : a ++ b = doc)
    (ha : a ≠ []) (hb : b ≠ []) (hpre : parse a = none) :
    recv_json parse [ReadEvent.bytes doc] = RecvOutcome.success v
    ∧ recv_json parse [ReadEvent.bytes a, ReadEvent.bytes b] = RecvOutcome.success v
    ∧ recv_json parse [ReadEvent.bytes doc, ReadEvent.timeoutEv] = RecvOutcome.success v
    ∧ recv_json parse [ReadEvent.bytes doc, ReadEvent.bytes []] = RecvOutcome.success v
    ∧ recv_json parse [ReadEvent.bytes a, ReadEvent.bytes b, ReadEvent.timeoutEv]
        = RecvOutcome.success v
    ∧ recv_json parse [ReadEvent.bytes a, ReadEvent.bytes b, ReadEvent.bytes []]
        = RecvOutcome.success v := by
  have hdne : doc ≠ [] := by
    rintro rfl
    exact ha (List.append_eq_nil.mp hsplit).1
  refine ⟨?_, ?_, ?_, ?_, ?_, ?_⟩ <;>
    simp [recv_json, recvLoop, hdne, hdoc, ha, hb, hpre, hsplit]

/-- Witness for C5: the document `"-12"` split as `"-"` then `"12"` (the
fragment `"-"` is not a complete document) is received as `-12` under all the
schedules. -/
theorem C5_schedule_independence_witness :
    recv_json jsonIntDoc [ReadEvent.bytes (str "-12")] = RecvOutcome.success (-12)
    ∧ recv_json jsonIntDoc [ReadEvent.bytes (str "-"), ReadEvent.bytes (str "12")]
        = RecvOutcome.success (-12)
    ∧ recv_json jsonIntDoc [ReadEvent.bytes (str "-12"), ReadEvent.timeoutEv]
        = RecvOutcome.success (-12)
    ∧ recv_json jsonIntDoc [ReadEvent.bytes (str "-12"), ReadEvent.bytes []]
        = RecvOutcome.success (-12)
    ∧ recv_json jsonIntDoc
        [ReadEvent.bytes (str "-"), ReadEvent.bytes (str "12"), ReadEvent.timeoutEv]
        = RecvOutcome.success (-12)
    ∧ recv_json jsonIntDoc
        [ReadEvent.bytes (str "-"), ReadEvent.bytes (str "12"), ReadEvent.bytes []]
        = RecvOutcome.success (-12) :=
  C5_schedule_independence jsonIntDoc (str "-12") (str "-") (str "12") (-12)
    (by decide) (by decide) (by decide) (by decide) (by decide)

/-- Counterexample to C5 as stated: the bytes `"12"` parse as the complete
document `12`, but delivered split as `"1"` then `"2"` the loop's
parse-after-every-read returns the prefix's value `1` — a different value
from the single-read delivery. -/
theorem C5_counterexample :
    jsonIntDoc (str "12") = some 12
    ∧ recv_json jsonIntDoc [ReadEvent.bytes (str "12")] = RecvOutcome.success 12
    ∧ recv_json jsonIntDoc [ReadEvent.bytes (str "1"), ReadEvent.bytes (str "2")]
        = RecvOutcome.success 1
    ∧ (RecvOutcome.success 1 : RecvOutcome Int) ≠ RecvOutcome.success 12 := by
  exact ⟨by decide, by decide, by decide, by decide⟩

/-- Claim C7: target resolution is total — for every selector (including
empty, blank, malformed or unknown-prefixed strings) and every settings with
non-empty default model names, it returns a provider among openai, anthropic
and groq paired with a non-empty model string.  (Selectors that classify
nowhere are sent to `choose_provider`'s fall-through and the defaults, so no
unknown provider can escape.) -/
theorem C7_resolution_total (model : Option Str) (settings : Settings)
    (h1 : settings.default_openai_model ≠ [])
    (h2 : settings.default_anthropic_model ≠ [])
    (h3 : settings.default_groq_model ≠ []) :
    ((resolve_provider_and_model model settings).1 = str "openai"
      ∨ (resolve_provider_and_model model settings).1 = str "anthropic"
      ∨ (resolve_provider_and_model model settings).1 = str "groq")
    ∧ (resolve_provider_and_model model settings).2 ≠ [] := by
  have hd := defaultTarget_cases settings
  unfold resolve_provider_and_model
  split_ifs with hreq hpm
  · rcases hd with h | h | h <;> rw [h] <;> simp [h1, h2, h3]
  · rcases hd with h | h | h <;> rw [h] <;> simp [h1, h2, h3]
  · constructor
    · rcases choose_provider_cases (requestedOf model)
        (strLower (pyStrip settings.default_provider)) with h | h | h <;> simp [h]
    · exact hpm

/-- Witness for C7: concrete resolutions under the default settings. -/
theorem C7_resolution_total_witness :
    (((resolve_provider_and_model (some (str " weird//model "))
        settingsOpenAI).1 = str "openai"
      ∨ (resolve_provider_and_model (some (str " weird//model "))
        settingsOpenAI).1 = str "anthropic"
      ∨ (resolve_provider_and_model (some (str " weird//model "))
        settingsOpenAI).1 = str "groq")
    ∧ (resolve_provider_and_model (some (str " weird//model "))
        settingsOpenAI).2 ≠ []) :=
  C7_resolution_total (some (str " weird//model ")) settingsOpenAI
    (by decide) (by decide) (by decide)

/-- Claim C8: a response whose status is `"error"` raises with exactly the
response's non-empty message (absent messages fall back to the generic one),
and any response with a different or absent status is returned as success. -/
theorem C8_error_status (r : BResponse) :
    (∀ m : Str, r.status = some (str "error") → r.message = some m → m ≠ [] →
      send_blender_command r = Except.error m)
    ∧ (r.status = some (str "error") → r.message = none →
      send_blender_command r = Except.error unknownAddonError)
    ∧ (r.status ≠ some (str "error") → send_blender_command r = Except.ok r) := by
  refine ⟨?_, ?_, ?_⟩
  · intro m hs hm hne
    unfold send_blender_command
    rw [if_pos hs, hm]
    simp [hne]
  · intro hs hm
    unfold send_blender_command
    rw [if_pos hs, hm]
  · intro hs
    unfold send_blender_command
    rw [if_neg hs]

/-- Witness for C8: status `"error"` with message `"boom"` raises exactly
`"boom"`; a `"ok"`-status response is returned as success. -/
theorem C8_error_status_witness :
    send_blender_command ⟨some (str "error"), some (str "boom"), none⟩
      = Except.error (str "boom")
    ∧ send_blender_command ⟨some (str "ok"), some (str "done"), some (str "objects")⟩
      = Except.ok ⟨some (str "ok"), some (str "done"), some (str "objects")⟩ :=
  ⟨(C8_error_status ⟨some (str "error"), some (str "boom"), none⟩).1
      (str "boom") rfl rfl (by decide),
   (C8_error_status ⟨some (str "ok"), some (str "done"), some (str "objects")⟩).2.2
      (by decide)⟩

/-- Claim C9: a selector that is a known provider prefix with an empty or
whitespace-only remainder (such as `"openai/"`) resolves exactly as if no
selector had been supplied: the split model name strips to empty and the
code falls through to the configured default provider and its default
model. -/
theorem C9_blank_remainder (ws : Str) (settings : Settings)
    (h : ∀ c ∈ ws, c.isWhitespace = true) :
    resolve_provider_and_model (some (str "openai/" ++ ws)) settings
      = resolve_provider_and_model none settings
    ∧ resolve_provider_and_model (some (str "anthropic/" ++ ws)) settings
      = resolve_provider_and_model none settings
    ∧ resolve_provider_and_model (some (str "groq/" ++ ws)) settings
      = resolve_provider_and_model none settings := by
  refine ⟨?_, ?_, ?_⟩
  · exact resolve_slash_blank_aux (str "openai/") ws (str "openai") settings
      (by rw [pyStrip_append_ws h]; decide) (by decide) (by decide)
      (choose_provider_openai_slash _) (by decide) (by decide)
  · exact resolve_slash_blank_aux (str "anthropic/") ws (str "anthropic") settings
      (by rw [pyStrip_append_ws h]; decide) (by decide) (by decide)
      (choose_provider_anthropic_slash _) (by decide) (by decide)
  · exact resolve_slash_blank_aux (str "groq/") ws (str "groq") settings
      (by rw [pyStrip_append_ws h]; decide) (by decide) (by decide)
      (choose_provider_groq_slash _) (by decide) (by decide)

/-- Witness for C9: `"openai/ "` (and the other prefixes) under a groq
default resolve to the groq default pair, as with no selector. -/
theorem C9_blank_remainder_witness :
    resolve_provider_and_model (some (str "openai/" ++ str " ")) settingsGroqDefault
      = resolve_provider_and_model none settingsGroqDefault
    ∧ resolve_provider_and_model (some (str "anthropic/" ++ str " ")) settingsGroqDefault
      = resolve_provider_and_model none settingsGroqDefault
    ∧ resolve_provider_and_model (some (str "groq/" ++ str " ")) settingsGroqDefault
      = resolve_provider_and_model none settingsGroqDefault :=
  C9_blank_remainder (str " ") settingsGroqDefault (by decide)

/-- Claim C10: in the Anthropic branch, only `"text"`-typed blocks contribute
(filtering the blocks to the text-typed ones does not change the result),
the contributing texts are joined with newlines, and a reply whose joined
text is blank after trimming — in particular one with no text-typed block at
all — raises the empty-response error; otherwise the extraction of the
joined text is returned. -/
theorem C10_anthropic_text_blocks (prompt : Str) (model : Option Str)
    (system_prompt : Str) (settings : Settings) (oracle : BackendOracle)
    (hprov : (resolve_provider_and_model model settings).1 = str "anthropic")
    (hkey : pyTruthy settings.anthropic_api_key = true) :
    (generate_python_code prompt model system_prompt settings oracle
      = generate_python_code prompt model system_prompt settings
          ⟨oracle.openai_output_text, oracle.groq_content,
           oracle.anthropic_blocks.filter isTextBlock⟩)
    ∧ (anthropicText oracle = [] →
      generate_python_code prompt model system_prompt settings oracle
        = Except.error (str "Anthropic response was empty."))
    ∧ (anthropicText oracle ≠ [] →
      generate_python_code prompt model system_prompt settings oracle
        = Except.ok (extract_python_block (anthropicText oracle),
            (resolve_provider_and_model model settings).1,
            str "anthropic/" ++ (resolve_provider_and_model model settings).2)) := by
  have hno : ¬ (resolve_provider_and_model model settings).1 = str "openai" := by
    rw [hprov]; decide
  have hng : ¬ (resolve_provider_and_model model settings).1 = str "groq" := by
    rw [hprov]; decide
  have hkey2 : ¬ pyTruthy settings.anthropic_api_key = false := by
    rw [hkey]; decide
  have htext : anthropicText
      ⟨oracle.openai_output_text, oracle.groq_content,
       oracle.anthropic_blocks.filter isTextBlock⟩ = anthropicText oracle := by
    unfold anthropicText
    simp [filter_isText_idem]
  refine ⟨?_, ?_, ?_⟩
  · unfold generate_python_code
    rw [htext]
    rfl
  · intro h0
    unfold generate_python_code
    rw [if_neg hno, if_neg hng, if_neg hkey2, if_pos h0]
  · intro h0
    unfold generate_python_code
    rw [if_neg hno, if_neg hng, if_neg hkey2, if_neg h0]

/-- Witness for C10: a concrete mixed-block reply where the two text blocks
contribute and the tool block is ignored. -/
theorem C10_anthropic_text_blocks_witness :
    generate_python_code (str "p") none (str "s") settingsAnthropic oracleAnthropicMixed
      = Except.ok (extract_python_block (anthropicText oracleAnthropicMixed),
          (resolve_provider_and_model none settingsAnthropic).1,
          str "anthropic/" ++ (resolve_provider_and_model none settingsAnthropic).2) :=
  (C10_anthropic_text_blocks (str "p") none (str "s") settingsAnthropic
    oracleAnthropicMixed (by decide) (by decide)).2.2 (by decide)

/-- When the computed start lands exactly at the end of a leading segment
`pre1` and the first closing fence of the lowered remainder sits exactly
after `X`, extraction returns `X` trimmed. -/
theorem extract_at_split (pre1 X post : Str)
    (hg : ¬ findSub bt3 (pre1 ++ (X ++ (bt3 ++ post))) = none)
    (hstartNat : (extractStart (strLower (pre1 ++ (X ++ (bt3 ++ post))))).toNat = pre1.length)
    (hclose : findSub bt3 (strLower (X ++ (bt3 ++ post))) = some X.length) :
    extract_python_block (pre1 ++ (X ++ (bt3 ++ post))) = pyStrip X := by
  have hlowdrop :
      (strLower (pre1 ++ (X ++ (bt3 ++ post)))).drop pre1.length
        = strLower (X ++ (bt3 ++ post)) := by
    rw [strLower_append, ← strLower_length pre1, List.drop_left]
  have hend : findSub bt3 ((strLower (pre1 ++ (X ++ (bt3 ++ post)))).drop
      (extractStart (strLower (pre1 ++ (X ++ (bt3 ++ post))))).toNat) = some X.length := by
    rw [hstartNat, hlowdrop]
    exact hclose
  rw [extract_found hg hend, hstartNat, List.drop_left, List.take_left]

/-- Claim C3 (amended): for a reply with a fence but no python-tagged
opening marker, whose first fenced block is closed, extraction returns the
text strictly between the three backticks of the first fence marker and the
next closing marker, trimmed — the language tag after the backticks is part
of that text, not excluded.  The text is decomposed as `pre`, the opening
fence, the in-between text `mid` (which starts with any language tag), the
closing fence, and `post`; the two position hypotheses say that the first
fence of the lowered text is the exhibited one and the first closing fence
after it is the exhibited one. -/
theorem C3_untagged_extraction (pre mid post : Str)
    (hm : findSub marker (strLower ((pre ++ bt3) ++ (mid ++ (bt3 ++ post)))) = none)
    (hfirst : findSub bt3 (strLower ((pre ++ bt3) ++ (mid ++ (bt3 ++ post))))
      = some pre.length)
    (hclose : findSub bt3 (strLower (mid ++ (bt3 ++ post))) = some mid.length) :
    extract_python_block ((pre ++ bt3) ++ (mid ++ (bt3 ++ post))) = pyStrip mid := by
  have hg : ¬ findSub bt3 ((pre ++ bt3) ++ (mid ++ (bt3 ++ post))) = none := by
    have h := findSub_append_pat bt3 pre (mid ++ (bt3 ++ post))
    simpa [List.append_assoc] using h
  have hstartNat :
      (extractStart (strLower ((pre ++ bt3) ++ (mid ++ (bt3 ++ post))))).toNat
        = (pre ++ bt3).length := by
    have h3 : bt3.length = 3 := rfl
    unfold extractStart pyFindInt
    rw [hm, hfirst]
    simp [List.length_append, h3]
    omega
  exact extract_at_split (pre ++ bt3) mid post hg hstartNat hclose

/-- Witness for C3 (amended): in `"see\n```js\nhello\n```done"` the first
fenced block's content is `"js\nhello\n"`, language tag included, and
extraction returns it trimmed. -/
theorem C3_untagged_extraction_witness :
    extract_python_block ((str "see\n" ++ bt3) ++ (str "js\nhello\n" ++ (bt3 ++ str "done")))
      = pyStrip (str "js\nhello\n") :=
  C3_untagged_extraction (str "see\n") (str "js\nhello\n") (str "done")
    (by decide) (by decide) (by decide)

/-- Counterexample to C3 as stated: in `"```js\nhello\n```"` the text between
the opening marker with the language tag excluded, trimmed, is `"hello"`, but
extraction returns `"js\nhello"` — the tag is included. -/
theorem C3_counterexample :
    extract_python_block (str "```js\nhello\n```") = str "js\nhello"
    ∧ pyStrip (str "hello") = str "hello"
    ∧ str "js\nhello" ≠ str "hello" := by
  exact ⟨by decide, by decide, by decide⟩

/-- Claim C6: the extraction round-trip — (a) a text whose first
python-tagged fence (case-insensitive tag, hence the `strLower tag = marker`
hypothesis) encloses content `X`, with the first closing fence after it
exactly at the end of `X`, extracts to `X` trimmed; (b) a text with no fence
marker at all extracts to the trimmed input; (c) a text with a fence but no
closing marker after the computed block start extracts to the trimmed whole
text. -/
theorem C6_extraction_roundtrip :
    (∀ pre tag X post : Str, strLower tag = marker →
      findSub marker (strLower ((pre ++ tag) ++ (X ++ (bt3 ++ post)))) = some pre.length →
      findSub bt3 (strLower (X ++ (bt3 ++ post))) = some X.length →
      extract_python_block ((pre ++ tag) ++ (X ++ (bt3 ++ post))) = pyStrip X)
    ∧ (∀ t : Str, findSub bt3 t = none → extract_python_block t = pyStrip t)
    ∧ (∀ t : Str, ¬ findSub bt3 t = none →
      findSub bt3 ((strLower t).drop (extractStart (strLower t)).toNat) = none →
      extract_python_block t = pyStrip t) := by
  refine ⟨?_, ?_, ?_⟩
  · intro pre tag X post htag hfirst hclose
    have hlen9 : tag.length = 9 := by
      have h := congrArg List.length htag
      rw [strLower_length] at h
      simpa [marker] using h
    have hg : ¬ findSub bt3 ((pre ++ tag) ++ (X ++ (bt3 ++ post))) = none := by
      have h := findSub_append_pat bt3 ((pre ++ tag) ++ X) post
      simpa [List.append_assoc] using h
    have hstartNat :
        (extractStart (strLower ((pre ++ tag) ++ (X ++ (bt3 ++ post))))).toNat
          = (pre ++ tag).length := by
      unfold extractStart
      rw [hfirst]
      simp [List.length_append, hlen9]
      omega
    exact extract_at_split (pre ++ tag) X post hg hstartNat hclose
  · intro t h
    unfold extract_python_block
    rw [if_pos h]
  · intro t hg he
    exact extract_after_none hg he

/-- Witness for C6: a mixed-case python-tagged block extracts to its trimmed
content; a fence-free text and an unterminated fence return the trimmed
input. -/
theorem C6_extraction_roundtrip_witness :
    extract_python_block
        ((str "Here:\n" ++ str "```Python") ++ (str "\nprint(1)\n" ++ (bt3 ++ str " done")))
      = pyStrip (str "\nprint(1)\n")
    ∧ extract_python_block (str "print(2)") = pyStrip (str "print(2)")
    ∧ extract_python_block (str "```python\nx = 1") = pyStrip (str "```python\nx = 1") :=
  ⟨C6_extraction_roundtrip.1 (str "Here:\n") (str "```Python") (str "\nprint(1)\n")
      (str " done") (by decide) (by decide) (by decide),
   C6_extraction_roundtrip.2.1 (str "print(2)") (by decide),
   C6_extraction_roundtrip.2.2 (str "```python\nx = 1") (by decide) (by decide)⟩

